import Mathlib

/-!
Shallow embedding of the resilient live-data streaming clients of this
repository: the keyed contract-update channel
(`ContractWebSocketServiceImpl`) and the broadcast market-data channel
(`MarketDataWebSocketServiceImpl`).  Pure computations (payload
validation, dispatch, backoff delay) are translated into Lean functions;
the stateful connection lifecycle is translated into explicit
state-passing functions over a record mirroring the class fields.
Timers are modelled by pending flags plus explicit firing functions;
callbacks are modelled by opaque numeric identifiers; outbound transport
emissions and observer invocations are returned as explicit effect data.
JavaScript numbers are modelled as rationals, which is faithful for the
order comparisons and field copies the code performs.
-/

/-- A JavaScript value as far as the validators inspect it: either a
number (`typeof v === "number"`), or anything else. -/
inductive JsVal where
  | num (x : ℚ)
  | other
deriving DecidableEq

namespace ContractWS

/-- The fields the contract validator reads off one token's raw entry;
`none` models an absent (undefined) property. -/
structure RawContractFields where
  price : Option JsVal := none
  changePercent : Option JsVal := none
  previousPrice : Option JsVal := none
deriving DecidableEq

/-- One raw entry of an inbound `contract_updates` frame: either a value
that fails `contractData && typeof contractData === "object"`, or an
object with its fields. -/
inductive RawEntry where
  | nonObject
  | obj (c : RawContractFields)
deriving DecidableEq

/-- A validated contract entry (`ContractData` in the source); the
source always fills `previousPrice` with a number. -/
structure ContractData where
  price : ℚ
  changePercent : ℚ
  previousPrice : ℚ
deriving DecidableEq

/-- Per-entry step of `ContractWebSocketServiceImpl.validateContractData`:
the entry must be a truthy object, `price` and `changePercent` must be
numbers, and `price` must satisfy `price > 0 && price < 100000`;
`previousPrice` is copied when it is a number and otherwise defaulted to
`price`. -/
def validateEntry : RawEntry → Option ContractData
  | RawEntry.nonObject => none
  | RawEntry.obj c =>
    match c.price, c.changePercent with
    | some (JsVal.num p), some (JsVal.num cp) =>
      if 0 < p ∧ p < 100000 then
        some { price := p, changePercent := cp,
               previousPrice :=
                 match c.previousPrice with
                 | some (JsVal.num q) => q
                 | _ => p }
      else none
    | _, _ => none

/-- `ContractWebSocketServiceImpl.validateContractData`: iterates the
frame's entries in order, keeps exactly the entries accepted by the
per-entry validation, and returns `null` when no entry survives
(`Object.keys(validatedData).length > 0 ? validatedData : null`).  The
frame is given as its entry list (`Object.entries(data)`); a frame that
fails the outer `!data || typeof data !== "object"` check never reaches
this point. -/
def validateContractData (entries : List (String × RawEntry)) :
    Option (List (String × ContractData)) :=
  let v := entries.filterMap fun e =>
    match validateEntry e.2 with
    | some d => some (e.1, d)
    | none => none
  if v.isEmpty then none else some v

/-- Property read `validatedData[token]` on the validated frame. -/
def lookupTok (t : String) : List (String × ContractData) → Option ContractData
  | [] => none
  | e :: rest => if e.1 = t then some e.2 else lookupTok t rest

/-- The dispatch loop of the `contract_updates` handler: iterate the
subscription registry (`specificContractCallbacks`), and for each
`(token, callback)` entry whose token occurs in the validated frame,
invoke the callback with the singleton object `{ [token]: validatedData[token] }`.
Callbacks are identified by numbers; the result lists the performed
invocations as `(token, callbackId, payload)` triples in iteration
order. -/
def dispatchContractUpdates (registry : List (String × Nat))
    (validated : List (String × ContractData)) :
    List (String × Nat × List (String × ContractData)) :=
  registry.filterMap fun e =>
    match lookupTok e.1 validated with
    | some d => some (e.1, e.2, [(e.1, d)])
    | none => none

/-- The mutable fields of `ContractWebSocketServiceImpl`.  Booleans
replace nullable timer handles and the socket handle (`true` = a
pending timer / a connected socket); callbacks are numeric identifiers;
field defaults are the class initializers. -/
structure State where
  connected : Bool := false
  isConnecting : Bool := false
  reconnectAttempts : Nat := 0
  reconnectPending : Bool := false
  isManualDisconnect : Bool := false
  lastConnected : Option Nat := none
  lastError : Option String := none
  lastDataReceived : Option Nat := none
  heartbeatOn : Bool := false
  connectionStabilized : Bool := false
  stabilizationPending : Bool := false
  contractCallback : Option Nat := none
  registry : List (String × Nat) := []
deriving DecidableEq

/-- The class constant `maxReconnectAttempts = 10`. -/
def maxReconnectAttempts : Nat := 10

/-- The class constant `RECONNECT_DELAY = 2000`. -/
def RECONNECT_DELAY : Nat := 2000

/-- The class constant `DATA_TIMEOUT = 60000`. -/
def DATA_TIMEOUT : Nat := 60000

/-- `isConnected()`: `this.contractsSocket?.connected || false`. -/
def isConnected (s : State) : Bool := s.connected

/-- The backoff delay computed inside `scheduleReconnect`:
`Math.min(this.RECONNECT_DELAY * Math.pow(2, this.reconnectAttempts), 10000)`. -/
def reconnectDelay (attempts : Nat) : Nat :=
  min (RECONNECT_DELAY * 2 ^ attempts) 10000

/-- `handleConnectionError` as far as it touches state: clears
`isConnecting` and records the message in `lastError` (the error
observer invocation is reported by the callers that need it). -/
def handleConnectionError (s : State) (msg : String) : State :=
  { s with isConnecting := false, lastError := some msg }

/-- Result of `scheduleReconnect`: the updated state, the delay of the
newly armed timer when one was armed, and whether the terminal
max-attempts error was reported through `handleConnectionError` (which
invokes the error observer). -/
structure ScheduleOutcome where
  state : State
  scheduledDelay : Option Nat
  terminalError : Bool
deriving DecidableEq

/-- `ContractWebSocketServiceImpl.scheduleReconnect`: bail out when a
reconnect timer is already pending or the disconnect was manual; report
the terminal error once `reconnectAttempts >= maxReconnectAttempts`;
otherwise arm one timer with the exponential-backoff delay. -/
def scheduleReconnect (s : State) : ScheduleOutcome :=
  if s.reconnectPending || s.isManualDisconnect then
    { state := s, scheduledDelay := none, terminalError := false }
  else if maxReconnectAttempts ≤ s.reconnectAttempts then
    { state := handleConnectionError s "Max reconnection attempts reached",
      scheduledDelay := none, terminalError := true }
  else
    { state := { s with reconnectPending := true },
      scheduledDelay := some (reconnectDelay s.reconnectAttempts),
      terminalError := false }

/-- What one heartbeat tick did besides updating state. -/
inductive HeartbeatEffect where
  | reconnectScheduling (delay : Option Nat) (terminalError : Bool)
  | forceCloseSocket
  | ping
deriving DecidableEq

/-- Truthiness-faithful staleness test of the heartbeat:
`this.lastDataReceived && Date.now() - this.lastDataReceived > this.DATA_TIMEOUT`
(a timestamp of `0` is falsy in JavaScript). -/
def staleCheck (now : Nat) : Option Nat → Bool
  | none => false
  | some t => t != 0 && decide (DATA_TIMEOUT < now - t)

/-- One firing of the `startHeartbeat` interval body: if the socket is
not connected, call `scheduleReconnect`; else if the staleness check
trips, call `this.contractsSocket?.disconnect()` (a transport-level
close, not the service's `disconnect()` — `isManualDisconnect` is not
touched); else emit a `ping`. -/
def heartbeatTick (now : Nat) (s : State) : State × HeartbeatEffect :=
  if isConnected s = false then
    let o := scheduleReconnect s
    (o.state, HeartbeatEffect.reconnectScheduling o.scheduledDelay o.terminalError)
  else if staleCheck now s.lastDataReceived then
    (s, HeartbeatEffect.forceCloseSocket)
  else
    (s, HeartbeatEffect.ping)

/-- Modelled from socket.io-client documented behavior, on which the
handler's guard `reason !== "io client disconnect"` relies: a close
initiated by calling `socket.disconnect()` on the client delivers the
`disconnect` event with this reason string. -/
def clientDisconnectReason : String := "io client disconnect"

/-- The `disconnect` socket-event handler: drop connecting/stabilized
flags, stop the heartbeat, clear the stabilization timer, invoke the
disconnect observer, and hand off to `scheduleReconnect` unless the
disconnect was manual or the close reason is a client-initiated
disconnect.  The transport being closed, `connected` becomes false.
Returns the state, the delay of a newly armed reconnect timer if any,
and whether the terminal error was reported. -/
def onDisconnectEvent (s : State) (reason : String) : State × Option Nat × Bool :=
  let s1 := { s with connected := false, isConnecting := false,
                     connectionStabilized := false, heartbeatOn := false,
                     stabilizationPending := false }
  if !s1.isManualDisconnect && reason != clientDisconnectReason then
    let o := scheduleReconnect s1
    (o.state, o.scheduledDelay, o.terminalError)
  else
    (s1, none, false)

/-- Process a sequence of `disconnect` events; the second component
records whether any of them armed a reconnect timer. -/
def runDisconnects : State → List String → State × Bool
  | s, [] => (s, false)
  | s, r :: rs =>
    let o := onDisconnectEvent s r
    let rest := runDisconnects o.1 rs
    (rest.1, o.2.1.isSome || rest.2)

/-- The `connect` socket-event handler up to arming the stabilization
timer: resets `isConnecting`, `reconnectAttempts`, `lastError`, records
`lastConnected` and `lastDataReceived`, and arms the one-shot
stabilization timer. -/
def onConnectEvent (now : Nat) (s : State) : State :=
  { s with connected := true, isConnecting := false, reconnectAttempts := 0,
           lastConnected := some now, lastError := none,
           lastDataReceived := some now, stabilizationPending := true }

/-- The body of the stabilization timer (`subscriptionTimeout`): mark
the connection stabilized, re-emit one `subscribe_specific_contract`
request per registry entry in registry order, start the heartbeat, and
invoke the connect observer.  The emitted request tokens are returned. -/
def stabilizationFire (s : State) : State × List String :=
  ({ s with connectionStabilized := true, stabilizationPending := false,
            heartbeatOn := true },
   s.registry.map fun e => e.1)

/-- JavaScript `Map.set` on the registry: replace the value in place
when the key is present, otherwise append the entry. -/
def setTok (reg : List (String × Nat)) (t : String) (cb : Nat) :
    List (String × Nat) :=
  match reg with
  | [] => [(t, cb)]
  | e :: rest => if e.1 = t then (t, cb) :: rest else e :: setTok rest t cb

/-- `subscribeToSpecificContract(token, callback)`: upsert the registry
entry, then emit `subscribe_specific_contract { token }` exactly when
`isConnected()` holds.  The boolean reports whether the request was
emitted. -/
def subscribeToSpecificContract (s : State) (token : String) (cb : Nat) :
    State × Bool :=
  let s1 := { s with registry := setTok s.registry token cb }
  if isConnected s1 then (s1, true) else (s1, false)

/-- `unsubscribeFromSpecificContract(token)`: drop the entry, then emit
`unsubscribe_specific_contract { token }` exactly when `isConnected()`
holds. -/
def unsubscribeFromSpecificContract (s : State) (token : String) :
    State × Bool :=
  let s1 := { s with registry := s.registry.filter fun e => e.1 ≠ token }
  if isConnected s1 then (s1, true) else (s1, false)

/-- `ContractWebSocketServiceImpl.disconnect()`: set the manual flag,
stop the heartbeat, clear the stabilization and reconnect timers, close
and drop the socket, clear `contractCallback` and the whole
`specificContractCallbacks` registry, and reset the connection
counters. -/
def disconnect (s : State) : State :=
  { s with isManualDisconnect := true, heartbeatOn := false,
           stabilizationPending := false, reconnectPending := false,
           connected := false, contractCallback := none, registry := [],
           isConnecting := false, reconnectAttempts := 0,
           connectionStabilized := false, lastDataReceived := none }

/-- `ContractWebSocketServiceImpl.connect()`: a no-op while
`isConnecting` or `isConnected()`; otherwise set `isConnecting`, clear
`lastError`, drop `connectionStabilized`, and open a fresh (not yet
connected) socket. -/
def connect (s : State) : State :=
  if s.isConnecting then s
  else if isConnected s then s
  else { s with isConnecting := true, lastError := none,
                connectionStabilized := false }

end ContractWS

namespace MarketWS

/-- The fields the market validator reads off one index entry; `none`
models an absent (undefined) property. -/
structure RawIndexData where
  price : Option JsVal := none
  changePercent : Option JsVal := none
deriving DecidableEq

/-- An inbound `market_data_update` frame as the validator inspects it:
its `nifty50` and `niftyBank` properties.  `none` models a property
that is falsy (absent, null, 0, ...); a truthy non-object value, whose
own `price`/`changePercent` reads give undefined, is modelled as a
`RawIndexData` with `none` fields and is rejected the same way. -/
structure RawMarketFrame where
  nifty50 : Option RawIndexData := none
  niftyBank : Option RawIndexData := none
deriving DecidableEq

/-- A validated index entry. -/
structure IndexData where
  price : ℚ
  changePercent : ℚ
deriving DecidableEq

/-- A validated market frame (the `MarketData` shape). -/
structure MarketData where
  nifty50 : IndexData
  niftyBank : IndexData
deriving DecidableEq

/-- `MarketDataWebSocketServiceImpl.validateMarketData`: reject the
whole frame (return `null`) unless `nifty50` is truthy with numeric
`price` and `changePercent`, then likewise `niftyBank`, then both
prices pass the combined range check
`nifty50.price <= 0 || nifty50.price > 100000 || niftyBank.price <= 0 || niftyBank.price > 100000`;
only then return both entries. -/
def validateMarketData (f : RawMarketFrame) : Option MarketData :=
  match f.nifty50 with
  | none => none
  | some n50 =>
    match n50.price, n50.changePercent with
    | some (JsVal.num p1), some (JsVal.num c1) =>
      match f.niftyBank with
      | none => none
      | some nb =>
        match nb.price, nb.changePercent with
        | some (JsVal.num p2), some (JsVal.num c2) =>
          if p1 ≤ 0 ∨ 100000 < p1 ∨ p2 ≤ 0 ∨ 100000 < p2 then none
          else some { nifty50 := { price := p1, changePercent := c1 },
                      niftyBank := { price := p2, changePercent := c2 } }
        | _, _ => none
    | _, _ => none

/-- The mutable fields of `MarketDataWebSocketServiceImpl`, modelled as
for the contract channel; the single broadcast consumer callback is
`marketDataCallback`. -/
structure State where
  connected : Bool := false
  isConnecting : Bool := false
  reconnectAttempts : Nat := 0
  reconnectPending : Bool := false
  isManualDisconnect : Bool := false
  lastConnected : Option Nat := none
  lastError : Option String := none
  lastDataReceived : Option Nat := none
  heartbeatOn : Bool := false
  connectionStabilized : Bool := false
  stabilizationPending : Bool := false
  marketDataCallback : Option Nat := none
deriving DecidableEq

/-- The class constant `maxReconnectAttempts = 10`. -/
def maxReconnectAttempts : Nat := 10

/-- The class constant `RECONNECT_DELAY = 2000`. -/
def RECONNECT_DELAY : Nat := 2000

/-- `isConnected()`: `this.marketDataSocket?.connected || false`. -/
def isConnected (s : State) : Bool := s.connected

/-- The backoff delay computed inside this class's copy of
`scheduleReconnect`:
`Math.min(this.RECONNECT_DELAY * Math.pow(2, this.reconnectAttempts), 10000)`. -/
def reconnectDelay (attempts : Nat) : Nat :=
  min (RECONNECT_DELAY * 2 ^ attempts) 10000

/-- `handleConnectionError` as far as it touches state. -/
def handleConnectionError (s : State) (msg : String) : State :=
  { s with isConnecting := false, lastError := some msg }

/-- Result of this class's `scheduleReconnect`, as for the contract
channel. -/
structure ScheduleOutcome where
  state : State
  scheduledDelay : Option Nat
  terminalError : Bool
deriving DecidableEq

/-- `MarketDataWebSocketServiceImpl.scheduleReconnect` (a copy of the
contract channel's). -/
def scheduleReconnect (s : State) : ScheduleOutcome :=
  if s.reconnectPending || s.isManualDisconnect then
    { state := s, scheduledDelay := none, terminalError := false }
  else if maxReconnectAttempts ≤ s.reconnectAttempts then
    { state := handleConnectionError s "Max reconnection attempts reached",
      scheduledDelay := none, terminalError := true }
  else
    { state := { s with reconnectPending := true },
      scheduledDelay := some (reconnectDelay s.reconnectAttempts),
      terminalError := false }

/-- `MarketDataWebSocketServiceImpl.connect()`: a no-op while
`isConnecting` or `isConnected()`; otherwise set `isConnecting`, clear
`lastError`, drop `connectionStabilized`, and open a fresh (not yet
connected) socket. -/
def connect (s : State) : State :=
  if s.isConnecting then s
  else if isConnected s then s
  else { s with isConnecting := true, lastError := none,
                connectionStabilized := false }

end MarketWS

/-!
Theorems settling the claims, stated over the embedding above.
-/

/-- Helper: upserting a key always leaves that key's fresh entry in the
registry, whether it replaced an old entry or was appended. -/
theorem mem_setTok (reg : List (String × Nat)) (t : String) (cb : Nat) :
    (t, cb) ∈ ContractWS.setTok reg t cb := by
  induction reg with
  | nil => simp [ContractWS.setTok]
  | cons e rest ih =>
    by_cases h : e.1 = t
    · simp [ContractWS.setTok, h]
    · simp only [ContractWS.setTok, if_neg h]
      exact List.mem_cons_of_mem e ih

/-- C1 counterexample: the claim says every registry entry present
before `disconnect()` is still present when it returns; on the state
holding the single subscription `("5900", 0)`, `disconnect()` returns a
state whose registry no longer contains it. -/
theorem c1_counterexample :
    ("5900", 0) ∈ ({ registry := [("5900", 0)] } : ContractWS.State).registry ∧
    ("5900", 0) ∉ (ContractWS.disconnect { registry := [("5900", 0)] }).registry := by
  decide

/-- C1 amended: `disconnect()` clears the subscription registry (and
the broadcast callback) entirely, besides setting the manual flag and
cancelling the pending timers, so a later `connect()` has nothing to
replay. -/
theorem c1_disconnect_clears_registry (s : ContractWS.State) :
    (ContractWS.disconnect s).registry = [] ∧
    (ContractWS.disconnect s).contractCallback = none ∧
    (ContractWS.disconnect s).isManualDisconnect = true ∧
    (ContractWS.disconnect s).reconnectPending = false ∧
    (ContractWS.disconnect s).stabilizationPending = false ∧
    (ContractWS.disconnect s).heartbeatOn = false := by
  simp [ContractWS.disconnect]

/-- C7 counterexample: the claim says a subscribe request is emitted if
and only if the connection is stable, and in particular that no request
is emitted during the unstable window; on a state whose transport is
connected but not yet stabilized, `subscribeToSpecificContract` emits
the request. -/
theorem c7_counterexample :
    (ContractWS.subscribeToSpecificContract { connected := true } "5900" 7).2 = true ∧
    ({ connected := true } : ContractWS.State).connectionStabilized = false := by
  decide

/-- C7 amended: `subscribeToSpecificContract` emits the
`subscribe_specific_contract` request exactly when `isConnected()`
holds (the transport-level connected flag, which is already true during
the unstable window); in every case the entry is recorded in the
registry, and stabilization state is untouched. -/
theorem c7_subscribe_emits_iff_connected (s : ContractWS.State) (token : String)
    (cb : Nat) :
    ((ContractWS.subscribeToSpecificContract s token cb).2 = true ↔
      ContractWS.isConnected s = true) ∧
    (token, cb) ∈ (ContractWS.subscribeToSpecificContract s token cb).1.registry ∧
    (ContractWS.subscribeToSpecificContract s token cb).1.connectionStabilized =
      s.connectionStabilized := by
  refine ⟨?_, ?_, ?_⟩
  · cases h : s.connected <;>
      simp [ContractWS.subscribeToSpecificContract, ContractWS.isConnected, h]
  · cases h : s.connected <;>
      simp only [ContractWS.subscribeToSpecificContract, ContractWS.isConnected, h] <;>
      simp <;> exact mem_setTok s.registry token cb
  · cases h : s.connected <;>
      simp [ContractWS.subscribeToSpecificContract, ContractWS.isConnected, h]

/-- C9 counterexample: the claim says that after a `connect()` call that
proceeds (neither connecting nor connected), `manualDisconnect` is
false; starting from the state a manual `disconnect()` leaves behind,
`connect()` proceeds but `isManualDisconnect` stays true. -/
theorem c9_counterexample :
    ({ isManualDisconnect := true } : ContractWS.State).isConnecting = false ∧
    ContractWS.isConnected { isManualDisconnect := true } = false ∧
    (ContractWS.connect { isManualDisconnect := true }).isManualDisconnect = true := by
  decide

/-- C9 amended: on both channels, when `connect()` is called in a state
that is neither connecting nor connected it proceeds, sets
`isConnecting`, clears `lastError` and `connectionStabilized`, but
leaves `manualDisconnect` unchanged (no code path of `connect()` clears
it). -/
theorem c9_connect_clears_lastError_not_manualFlag
    (s : ContractWS.State) (t : MarketWS.State)
    (h1 : s.isConnecting = false) (h2 : ContractWS.isConnected s = false)
    (h3 : t.isConnecting = false) (h4 : MarketWS.isConnected t = false) :
    (ContractWS.connect s).lastError = none ∧
    (ContractWS.connect s).isManualDisconnect = s.isManualDisconnect ∧
    (ContractWS.connect s).isConnecting = true ∧
    (ContractWS.connect s).connectionStabilized = false ∧
    (MarketWS.connect t).lastError = none ∧
    (MarketWS.connect t).isManualDisconnect = t.isManualDisconnect ∧
    (MarketWS.connect t).isConnecting = true ∧
    (MarketWS.connect t).connectionStabilized = false := by
  simp only [ContractWS.isConnected] at h2
  simp only [MarketWS.isConnected] at h4
  simp [ContractWS.connect, MarketWS.connect, ContractWS.isConnected,
        MarketWS.isConnected, h1, h2, h3, h4]

/-- C9 witness: the amended theorem applied to the post-`disconnect()`
states of both channels. -/
theorem c9_connect_clears_lastError_not_manualFlag_witness :
    (ContractWS.connect { isManualDisconnect := true }).lastError = none ∧
    (ContractWS.connect { isManualDisconnect := true }).isManualDisconnect =
      ({ isManualDisconnect := true } : ContractWS.State).isManualDisconnect ∧
    (ContractWS.connect { isManualDisconnect := true }).isConnecting = true ∧
    (ContractWS.connect { isManualDisconnect := true }).connectionStabilized = false ∧
    (MarketWS.connect { isManualDisconnect := true }).lastError = none ∧
    (MarketWS.connect { isManualDisconnect := true }).isManualDisconnect =
      ({ isManualDisconnect := true } : MarketWS.State).isManualDisconnect ∧
    (MarketWS.connect { isManualDisconnect := true }).isConnecting = true ∧
    (MarketWS.connect { isManualDisconnect := true }).connectionStabilized = false :=
  c9_connect_clears_lastError_not_manualFlag
    { isManualDisconnect := true } { isManualDisconnect := true }
    rfl rfl rfl rfl

/-- C6: the delay the scheduler computes for attempt count `n` is
`min(2000 * 2 ^ n, 10000)` on both channel copies, the delay sequence
is non-decreasing and capped at 10 s, and attempts 0..5 yield
2 s, 4 s, 8 s, 10 s, 10 s, 10 s. -/
theorem c6_backoff_delay (n m : Nat) (hmn : m ≤ n) (s : ContractWS.State)
    (hp : s.reconnectPending = false) (hm : s.isManualDisconnect = false)
    (ha : s.reconnectAttempts = n) (hn : n < 10) :
    (ContractWS.scheduleReconnect s).scheduledDelay =
      some (min (2000 * 2 ^ n) 10000) ∧
    (∀ j : Nat, ContractWS.reconnectDelay j = min (2000 * 2 ^ j) 10000) ∧
    (∀ j : Nat, MarketWS.reconnectDelay j = ContractWS.reconnectDelay j) ∧
    ContractWS.reconnectDelay m ≤ ContractWS.reconnectDelay n ∧
    (∀ j : Nat, ContractWS.reconnectDelay j ≤ 10000) ∧
    ContractWS.reconnectDelay 0 = 2000 ∧ ContractWS.reconnectDelay 1 = 4000 ∧
    ContractWS.reconnectDelay 2 = 8000 ∧ ContractWS.reconnectDelay 3 = 10000 ∧
    ContractWS.reconnectDelay 4 = 10000 ∧ ContractWS.reconnectDelay 5 = 10000 := by
  have hmax : ¬ (ContractWS.maxReconnectAttempts ≤ n) := by
    simp only [ContractWS.maxReconnectAttempts]; omega
  refine ⟨?_, fun j => rfl, fun j => rfl, ?_, fun j => min_le_right _ _,
          by decide, by decide, by decide, by decide, by decide, by decide⟩
  · simp [ContractWS.scheduleReconnect, hp, hm, hmax, ContractWS.reconnectDelay,
          ContractWS.RECONNECT_DELAY, ha]
  · exact min_le_min
      (Nat.mul_le_mul_left _ (Nat.pow_le_pow_right (by norm_num) hmn)) le_rfl

/-- C6 witness: attempts 3 and 2 on the idle state with attempt count 3. -/
theorem c6_backoff_delay_witness :
    (ContractWS.scheduleReconnect { reconnectAttempts := 3 }).scheduledDelay =
      some (min (2000 * 2 ^ 3) 10000) ∧
    ContractWS.reconnectDelay 2 ≤ ContractWS.reconnectDelay 3 :=
  have h := c6_backoff_delay 3 2 (by decide) { reconnectAttempts := 3 }
    rfl rfl rfl (by decide)
  ⟨h.1, h.2.2.2.1⟩

/-- C2: on the keyed contract channel, a registered subscription's
callback is invoked by the dispatcher if and only if the validated
frame contains an entry for its token, and an invocation carries
exactly the singleton slice for that token; an invocation exists only
for registry entries, so frame keys without a subscription produce
none. -/
theorem c2_dispatch_exact_slice (reg : List (String × Nat))
    (val : List (String × ContractWS.ContractData)) (k : String) (cb : Nat)
    (p : List (String × ContractWS.ContractData)) :
    (k, cb, p) ∈ ContractWS.dispatchContractUpdates reg val ↔
      ((k, cb) ∈ reg ∧
        ∃ d, ContractWS.lookupTok k val = some d ∧ p = [(k, d)]) := by
  simp only [ContractWS.dispatchContractUpdates, List.mem_filterMap]
  constructor
  · rintro ⟨⟨t, c⟩, he, hfe⟩
    cases hl : ContractWS.lookupTok t val with
    | none => rw [hl] at hfe; simp at hfe
    | some d =>
      rw [hl] at hfe
      simp only [Option.some.injEq, Prod.mk.injEq] at hfe
      obtain ⟨rfl, rfl, rfl⟩ := hfe
      exact ⟨he, d, hl, rfl⟩
  · rintro ⟨hmem, d, hd, rfl⟩
    exact ⟨(k, cb), hmem, by simp [hd]⟩

/-- C8: on each stabilization event, the replayer emits the
`subscribe_specific_contract` requests exactly in registry order — one
request per entry, so with the registry's keys unique (a `Map`
invariant) no token is skipped and none is duplicated — and the state
is marked stabilized with the heartbeat started. -/
theorem c8_stabilization_replays_each_entry_once (s : ContractWS.State)
    (h : (s.registry.map Prod.fst).Nodup) :
    (ContractWS.stabilizationFire s).2 = s.registry.map Prod.fst ∧
    (ContractWS.stabilizationFire s).2.Nodup ∧
    (ContractWS.stabilizationFire s).2.length = s.registry.length ∧
    (∀ e ∈ s.registry, e.1 ∈ (ContractWS.stabilizationFire s).2) ∧
    (ContractWS.stabilizationFire s).1.connectionStabilized = true ∧
    (ContractWS.stabilizationFire s).1.heartbeatOn = true := by
  refine ⟨rfl, h, List.length_map _ _, ?_, rfl, rfl⟩
  intro e he
  exact List.mem_map_of_mem _ he

/-- C8 witness: the replay on a two-entry registry. -/
theorem c8_stabilization_replays_each_entry_once_witness :
    (ContractWS.stabilizationFire { registry := [("26000", 3), ("26009", 4)] }).2 =
      ({ registry := [("26000", 3), ("26009", 4)] } : ContractWS.State).registry.map
        Prod.fst ∧
    (ContractWS.stabilizationFire { registry := [("26000", 3), ("26009", 4)] }).2.Nodup :=
  have h := c8_stabilization_replays_each_entry_once
    { registry := [("26000", 3), ("26009", 4)] } (by decide)
  ⟨h.1, h.2.1⟩

/-- C3 counterexample: the claim says the broadcast market-data channel
also accepts partially — an out-of-range sibling is dropped and the
in-range entry still dispatched; on the frame with `nifty50` in range
(price 100) and `niftyBank` out of range (price 200000) the market
validator rejects the whole frame, so nothing is dispatched. -/
theorem c3_counterexample :
    MarketWS.validateMarketData
      { nifty50 := some { price := some (JsVal.num 100),
                          changePercent := some (JsVal.num 1) },
        niftyBank := some { price := some (JsVal.num 200000),
                            changePercent := some (JsVal.num 1) } } = none ∧
    (0 < (100 : ℚ) ∧ (100 : ℚ) ≤ 100000) ∧ 100000 < (200000 : ℚ) := by
  refine ⟨by decide, by norm_num, by norm_num⟩

/-- C3 amended: partial acceptance holds on the keyed contract channel —
in a two-entry frame the rejected entry is dropped and the accepted one
is still dispatched, in either order — but the broadcast market-data
validator is all-or-nothing: whenever either index price fails the
range check the whole frame is rejected. -/
theorem c3_partial_contract_total_market (k1 k2 : String)
    (e1 e2 : ContractWS.RawEntry) (d1 : ContractWS.ContractData)
    (h1 : ContractWS.validateEntry e1 = some d1)
    (h2 : ContractWS.validateEntry e2 = none)
    (n50 nb : MarketWS.RawIndexData) (p1 c1 p2 c2 : ℚ)
    (hn : n50.price = some (JsVal.num p1))
    (hnc : n50.changePercent = some (JsVal.num c1))
    (hb : nb.price = some (JsVal.num p2))
    (hbc : nb.changePercent = some (JsVal.num c2))
    (hrange : p1 ≤ 0 ∨ 100000 < p1 ∨ p2 ≤ 0 ∨ 100000 < p2) :
    ContractWS.validateContractData [(k1, e1), (k2, e2)] = some [(k1, d1)] ∧
    ContractWS.validateContractData [(k2, e2), (k1, e1)] = some [(k1, d1)] ∧
    MarketWS.validateMarketData { nifty50 := some n50, niftyBank := some nb } =
      none := by
  refine ⟨?_, ?_, ?_⟩
  · simp [ContractWS.validateContractData, h1, h2]
  · simp [ContractWS.validateContractData, h1, h2]
  · simp [MarketWS.validateMarketData, hn, hnc, hb, hbc, hrange]

/-- C3 witness: the amended theorem on the frame pairing an accepted
entry (price 100) with a rejected one (price 200000), on both
channels. -/
theorem c3_partial_contract_total_market_witness :
    ContractWS.validateContractData
      [("A", ContractWS.RawEntry.obj { price := some (JsVal.num 100),
                                       changePercent := some (JsVal.num 2) }),
       ("B", ContractWS.RawEntry.obj { price := some (JsVal.num 200000),
                                       changePercent := some (JsVal.num 1) })] =
      some [("A", { price := 100, changePercent := 2, previousPrice := 100 })] ∧
    ContractWS.validateContractData
      [("B", ContractWS.RawEntry.obj { price := some (JsVal.num 200000),
                                       changePercent := some (JsVal.num 1) }),
       ("A", ContractWS.RawEntry.obj { price := some (JsVal.num 100),
                                       changePercent := some (JsVal.num 2) })] =
      some [("A", { price := 100, changePercent := 2, previousPrice := 100 })] ∧
    MarketWS.validateMarketData
      { nifty50 := some { price := some (JsVal.num 100),
                          changePercent := some (JsVal.num 2) },
        niftyBank := some { price := some (JsVal.num 200000),
                            changePercent := some (JsVal.num 1) } } = none :=
  c3_partial_contract_total_market "A" "B"
    (ContractWS.RawEntry.obj { price := some (JsVal.num 100),
                               changePercent := some (JsVal.num 2) })
    (ContractWS.RawEntry.obj { price := some (JsVal.num 200000),
                               changePercent := some (JsVal.num 1) })
    { price := 100, changePercent := 2, previousPrice := 100 }
    (by decide) (by decide)
    { price := some (JsVal.num 100), changePercent := some (JsVal.num 2) }
    { price := some (JsVal.num 200000), changePercent := some (JsVal.num 1) }
    100 2 200000 1 rfl rfl rfl rfl
    (Or.inr (Or.inr (Or.inr (by norm_num))))

/-- C10: every entry the contract validator places in the dispatched
payload comes from a raw object entry whose `price` and
`changePercent` are numbers with the price in range, and its
`previousPrice` equals the inbound `previousPrice` when that field is a
number and otherwise equals the inbound `price`. -/
theorem c10_previousPrice_defaults_to_price
    (entries : List (String × ContractWS.RawEntry))
    (val : List (String × ContractWS.ContractData)) (k : String)
    (d : ContractWS.ContractData)
    (h : ContractWS.validateContractData entries = some val)
    (hm : (k, d) ∈ val) :
    ∃ c : ContractWS.RawContractFields,
      (k, ContractWS.RawEntry.obj c) ∈ entries ∧
      ∃ p cp : ℚ,
        c.price = some (JsVal.num p) ∧
        c.changePercent = some (JsVal.num cp) ∧
        d.price = p ∧ d.changePercent = cp ∧ 0 < p ∧ p < 100000 ∧
        (∀ q : ℚ, c.previousPrice = some (JsVal.num q) → d.previousPrice = q) ∧
        ((∀ q : ℚ, c.previousPrice ≠ some (JsVal.num q)) →
          d.previousPrice = d.price) := by
  simp only [ContractWS.validateContractData] at h
  split at h
  · exact absurd h (by simp)
  · have hv : (k, d) ∈ entries.filterMap fun e =>
        match ContractWS.validateEntry e.2 with
        | some d0 => some (e.1, d0)
        | none => none := by
      cases h; exact hm
    rcases List.mem_filterMap.mp hv with ⟨⟨t, re⟩, he, hfe⟩
    cases re with
    | nonObject => simp [ContractWS.validateEntry] at hfe
    | obj c =>
      cases hve : ContractWS.validateEntry (ContractWS.RawEntry.obj c) with
      | none => rw [hve] at hfe; simp at hfe
      | some d0 =>
        rw [hve] at hfe
        simp only [Option.some.injEq, Prod.mk.injEq] at hfe
        obtain ⟨rfl, rfl⟩ := hfe
        refine ⟨c, he, ?_⟩
        cases hp : c.price with
        | none => simp [ContractWS.validateEntry, hp] at hve
        | some jp =>
          cases jp with
          | other => simp [ContractWS.validateEntry, hp] at hve
          | num p =>
            cases hcp : c.changePercent with
            | none => simp [ContractWS.validateEntry, hp, hcp] at hve
            | some jc =>
              cases jc with
              | other => simp [ContractWS.validateEntry, hp, hcp] at hve
              | num cp =>
                simp only [ContractWS.validateEntry, hp, hcp] at hve
                split at hve
                · rename_i hr
                  injection hve with h0
                  subst h0
                  refine ⟨p, cp, rfl, rfl, rfl, rfl, hr.1, hr.2, ?_, ?_⟩
                  · intro q hq; simp [hq]
                  · intro hne
                    cases hpp : c.previousPrice with
                    | none => simp [hpp]
                    | some jq =>
                      cases jq with
                      | num q => exact absurd hpp (hne q)
                      | other => simp [hpp]
                · exact absurd hve (by simp)

/-- C10 witness: a frame whose entry omits `previousPrice` is dispatched
with `previousPrice` equal to the inbound price. -/
theorem c10_previousPrice_defaults_to_price_witness :
    ∃ c : ContractWS.RawContractFields,
      ("A", ContractWS.RawEntry.obj c) ∈
        [("A", ContractWS.RawEntry.obj { price := some (JsVal.num 100),
                                         changePercent := some (JsVal.num 1) })] ∧
      ∃ p cp : ℚ,
        c.price = some (JsVal.num p) ∧
        c.changePercent = some (JsVal.num cp) ∧
        ({ price := 100, changePercent := 1, previousPrice := 100 } :
            ContractWS.ContractData).price = p ∧
        ({ price := 100, changePercent := 1, previousPrice := 100 } :
            ContractWS.ContractData).changePercent = cp ∧
        0 < p ∧ p < 100000 ∧
        (∀ q : ℚ, c.previousPrice = some (JsVal.num q) →
          ({ price := 100, changePercent := 1, previousPrice := 100 } :
              ContractWS.ContractData).previousPrice = q) ∧
        ((∀ q : ℚ, c.previousPrice ≠ some (JsVal.num q)) →
          ({ price := 100, changePercent := 1, previousPrice := 100 } :
              ContractWS.ContractData).previousPrice =
            ({ price := 100, changePercent := 1, previousPrice := 100 } :
                ContractWS.ContractData).price) :=
  c10_previousPrice_defaults_to_price
    [("A", ContractWS.RawEntry.obj { price := some (JsVal.num 100),
                                     changePercent := some (JsVal.num 1) })]
    [("A", { price := 100, changePercent := 1, previousPrice := 100 })]
    "A" { price := 100, changePercent := 1, previousPrice := 100 }
    (by decide) (by decide)

/-- Helper: once the attempt counter has reached the ceiling and no
reconnect timer is pending, a `disconnect` event arms no timer and
leaves the counter and the pending flag as they were. -/
theorem onDisconnectEvent_exhausted (s : ContractWS.State) (r : String)
    (ha : ContractWS.maxReconnectAttempts ≤ s.reconnectAttempts)
    (hp : s.reconnectPending = false) :
    (ContractWS.onDisconnectEvent s r).2.1 = none ∧
    (ContractWS.onDisconnectEvent s r).1.reconnectPending = false ∧
    (ContractWS.onDisconnectEvent s r).1.reconnectAttempts =
      s.reconnectAttempts := by
  cases hm : s.isManualDisconnect with
  | true => simp [ContractWS.onDisconnectEvent, hm, hp]
  | false =>
    by_cases hr : r = ContractWS.clientDisconnectReason
    · simp [ContractWS.onDisconnectEvent, hm, hr, hp]
    · simp [ContractWS.onDisconnectEvent, ContractWS.scheduleReconnect,
            ContractWS.handleConnectionError, hm, hr, hp, ha]

/-- Helper: from an exhausted, timer-free state, no sequence of
`disconnect` events ever arms a reconnect timer. -/
theorem runDisconnects_exhausted (rs : List String) :
    ∀ s : ContractWS.State,
      ContractWS.maxReconnectAttempts ≤ s.reconnectAttempts →
      s.reconnectPending = false →
      (ContractWS.runDisconnects s rs).2 = false := by
  induction rs with
  | nil => intro s _ _; rfl
  | cons r rs ih =>
    intro s ha hp
    have h := onDisconnectEvent_exhausted s r ha hp
    simp only [ContractWS.runDisconnects]
    rw [h.1]
    simp only [Option.isSome_none, Bool.false_or]
    exact ih _ (h.2.2 ▸ ha) h.2.1

/-- C5: once `reconnectAttempts` exceeds the ceiling of 10, both
channels' schedulers report the terminal error through the error
observer and arm no timer, and on the contract channel every subsequent
sequence of disconnect events arms no reconnect timer either — recovery
needs a manual `connect()`. -/
theorem c5_retry_budget_terminal (s : ContractWS.State) (t : MarketWS.State)
    (h1 : 10 < s.reconnectAttempts)
    (h2 : s.reconnectPending = false)
    (h3 : s.isManualDisconnect = false)
    (h4 : 10 < t.reconnectAttempts)
    (h5 : t.reconnectPending = false)
    (h6 : t.isManualDisconnect = false) :
    (ContractWS.scheduleReconnect s).terminalError = true ∧
    (ContractWS.scheduleReconnect s).scheduledDelay = none ∧
    (∀ rs : List String, (ContractWS.runDisconnects s rs).2 = false) ∧
    (MarketWS.scheduleReconnect t).terminalError = true ∧
    (MarketWS.scheduleReconnect t).scheduledDelay = none := by
  have ha : ContractWS.maxReconnectAttempts ≤ s.reconnectAttempts := by
    simp only [ContractWS.maxReconnectAttempts]; omega
  have hb : MarketWS.maxReconnectAttempts ≤ t.reconnectAttempts := by
    simp only [MarketWS.maxReconnectAttempts]; omega
  refine ⟨?_, ?_, fun rs => runDisconnects_exhausted rs s ha h2, ?_, ?_⟩
  · simp [ContractWS.scheduleReconnect, h2, h3, ha]
  · simp [ContractWS.scheduleReconnect, h2, h3, ha]
  · simp [MarketWS.scheduleReconnect, h5, h6, hb]
  · simp [MarketWS.scheduleReconnect, h5, h6, hb]

/-- C5 witness: both schedulers at attempt count 11, and two further
disconnect events on the contract channel. -/
theorem c5_retry_budget_terminal_witness :
    (ContractWS.scheduleReconnect { reconnectAttempts := 11 }).terminalError = true ∧
    (ContractWS.scheduleReconnect { reconnectAttempts := 11 }).scheduledDelay = none ∧
    (ContractWS.runDisconnects { reconnectAttempts := 11 }
      ["transport close", "ping timeout"]).2 = false ∧
    (MarketWS.scheduleReconnect { reconnectAttempts := 11 }).terminalError = true ∧
    (MarketWS.scheduleReconnect { reconnectAttempts := 11 }).scheduledDelay = none :=
  have h := c5_retry_budget_terminal { reconnectAttempts := 11 }
    { reconnectAttempts := 11 } (by decide) rfl rfl (by decide) rfl rfl
  ⟨h.1, h.2.1, h.2.2.1 ["transport close", "ping timeout"], h.2.2.2.1, h.2.2.2.2⟩

/-- C4: on the stable connection that has been without data for 61 s,
the heartbeat tick force-closes the socket via the transport (the
service's `disconnect()` is not called, so `isManualDisconnect` stays
false) — but the resulting `disconnect` event carries the
client-initiated reason, which the handler excludes, so no reconnection
is scheduled and no terminal error is reported; the reconnection
scheduler does not engage, contrary to the claim and to the handler's
own stated intent of reconnecting. -/
theorem c4_staleness_close_suppresses_reconnect :
    (ContractWS.heartbeatTick 62000
      { connected := true, connectionStabilized := true, heartbeatOn := true,
        lastDataReceived := some 1000, registry := [("5900", 0)] }).2 =
      ContractWS.HeartbeatEffect.forceCloseSocket ∧
    (ContractWS.heartbeatTick 62000
      { connected := true, connectionStabilized := true, heartbeatOn := true,
        lastDataReceived := some 1000, registry := [("5900", 0)] }).1.isManualDisconnect
      = false ∧
    (ContractWS.onDisconnectEvent
      (ContractWS.heartbeatTick 62000
        { connected := true, connectionStabilized := true, heartbeatOn := true,
          lastDataReceived := some 1000, registry := [("5900", 0)] }).1
      ContractWS.clientDisconnectReason).2.1 = none ∧
    (ContractWS.onDisconnectEvent
      (ContractWS.heartbeatTick 62000
        { connected := true, connectionStabilized := true, heartbeatOn := true,
          lastDataReceived := some 1000, registry := [("5900", 0)] }).1
      ContractWS.clientDisconnectReason).2.2 = false ∧
    (ContractWS.onDisconnectEvent
      (ContractWS.heartbeatTick 62000
        { connected := true, connectionStabilized := true, heartbeatOn := true,
          lastDataReceived := some 1000, registry := [("5900", 0)] }).1
      ContractWS.clientDisconnectReason).1.isManualDisconnect = false := by
  decide
